import Mathlib

/-!
Shallow embedding of `pymarketstore/client.py` (the MarketStore client's
request/payload marshalling layer): the dtype wire-code table, timestamp
normalization, the `Params` query spec, the query-request builder, the
columnar write-payload builder, the write error wrapping, and the stream
endpoint derivation.

Modelling conventions:
* Python dicts that preserve insertion order are modelled as association
  lists `List (String × _)`; key presence is `wlookup` returning `some`.
* `pandas.Timestamp` instants are modelled as an integer count of
  nanoseconds since the Unix epoch (`Int`), the value exposed by the
  `.value` attribute the code reads. Constructing from an integer with
  `unit='s'` multiplies by 10^9. Inputs to `get_timestamp` are the three
  shapes the code branches on: `None`, an integer (seconds), or any other
  parseable representation, modelled as the instant pandas parses it to.
* `int(ns / 10 ** 9)` is modelled bit-for-bit: CPython's true division of
  two ints returns the correctly rounded (round-half-to-even) binary64
  quotient, which `int()` then truncates toward zero. The rounding is
  implemented exactly over ℕ (`roundHalfEven` / `halfEvenSecs`), faithful
  for every int64 `ns` — every value `pd.Timestamp.value` can hold. This
  differs from exact truncation: e.g. `ns = 10^18 - 1` yields `10^9`.
* numpy structured arrays are modelled by `RecArray`: an ordered list of
  columns (field name, dtype `.str` tag such as "<f4", and the per-row
  element byte strings whose concatenation is `bytes(memoryview(col))`),
  plus `nrows` for `len(recarray)`. A genuine numpy array always has
  every column of length `nrows`; the model does not bake that in, so
  that behaviour on mismatched inputs can be stated.
* The injected RPC transport is a function argument; its outcome at one
  call is a `WriteOutcome` (success, connection-level failure carrying the
  raw message, or any other HTTP-level error).
-/

namespace PyMarketstore

/-- First-match lookup in an insertion-ordered association list (dict model). -/
def wlookup {β : Type} (key : String) : List (String × β) → Option β
  | [] => none
  | (k, v) :: rest => if k = key then some v else wlookup key rest

/-- `data_type_conv` from `client.py` lines 17-22: a module-level table from
numpy dtype tags to single-character wire codes. (It is not consulted by
`Client._build_data`.) -/
def data_type_conv : List (String × String) :=
  [("<f4", "f"), ("<f8", "d"), ("<i4", "i"), ("<i8", "q")]

/-- A timestamp-like input, as the branches of `get_timestamp` see it:
an integer (whole seconds since epoch) or any other representation pandas
can parse, carried as the instant (in ns since epoch) it parses to. -/
inductive TimeIn : Type
  | secs (n : Int)
  | instant (ns : Int)
  deriving DecidableEq

/-- `get_timestamp` from `client.py` lines 34-39: `None` stays `None` (unset);
an integer is interpreted as whole seconds since epoch (`pd.Timestamp(v,
unit='s')`, i.e. `v * 10^9` nanoseconds); anything else is parsed as a
calendar timestamp. Result: the instant in nanoseconds since epoch. -/
def get_timestamp : Option TimeIn → Option Int
  | none => none
  | some (TimeIn.secs n) => some (n * 1000000000)
  | some (TimeIn.instant ns) => some ns

/-- The symbols argument of `Params.__init__`: a single scalar or an ordered
collection (`isiterable` distinguishes list/tuple/set from a scalar). -/
inductive Symbols : Type
  | single (s : String)
  | many (l : List String)
  deriving DecidableEq

/-- The normalization `if not isiterable(symbols): symbols = [symbols]`. -/
def Symbols.toList : Symbols → List String
  | Symbols.single s => [s]
  | Symbols.many l => l

/-- The `Params` query-spec object (`client.py` lines 42-55). `end` is a Lean
keyword, so the field is spelled `end_`; the setter key stays `"end"`.
Optional fields are `Option`; `none` models Python `None` (server default /
unset). `start`/`end_` hold instants in nanoseconds since epoch. -/
structure Params where
  tbk : String
  key_category : Option String
  start : Option Int
  end_ : Option Int
  limit : Option Int
  limit_from_start : Option Bool
  functions : Option (List String)
  deriving DecidableEq

/-- `Params.__init__` (`client.py` lines 44-55): a scalar symbol is wrapped in
a one-element list, then `tbk = ','.join(symbols) + "/" + timeframe + "/" +
attrgroup`; `key_category` and `functions` start unset; `start`/`end` are
normalized through `get_timestamp`. -/
def Params.init (symbols : Symbols) (timeframe attrgroup : String)
    (start end_ : Option TimeIn) (limit : Option Int)
    (limit_from_start : Option Bool) : Params :=
  { tbk := String.intercalate "," symbols.toList ++ "/" ++ timeframe ++ "/" ++ attrgroup
  , key_category := none
  , start := get_timestamp start
  , end_ := get_timestamp end_
  , limit := limit
  , limit_from_start := limit_from_start
  , functions := none }

/-- The Python attribute names set on a `Params` instance in `__init__`
(the instance's data fields). -/
def paramsFields : List String :=
  ["tbk", "key_category", "start", "end", "limit", "limit_from_start", "functions"]

/-- The class-level attribute names `hasattr(self, key)` also finds on a
`Params` instance besides the data fields: the class's own method `set`, its
overridden `__init__`/`__repr__`, and the names inherited from `object`,
taken as the union over CPython 3 versions (e.g. `__getstate__` exists only
from 3.11 on). The setter accepts every name it actually has, so this
overapproximation keeps the rejection statements below sound in every
version: a key outside both lists is an attribute in none of them. -/
def paramsClassAttrs : List String :=
  ["set", "__class__", "__delattr__", "__dict__", "__dir__", "__doc__", "__eq__",
   "__format__", "__ge__", "__getattribute__", "__getstate__", "__gt__", "__hash__",
   "__init__", "__init_subclass__", "__le__", "__lt__", "__module__", "__ne__",
   "__new__", "__reduce__", "__reduce_ex__", "__repr__", "__setattr__", "__sizeof__",
   "__str__", "__subclasshook__", "__weakref__"]

/-- A value passed to `Params.set`, tagged with the shape the target field
stores. (Python's `setattr` is untyped; the model pairs each field with its
value shape, so a shape-mismatched assignment has no counterpart here.) -/
inductive SetVal : Type
  | timeVal (t : Option TimeIn)
  | strVal (s : String)
  | optStrVal (s : Option String)
  | intVal (n : Option Int)
  | boolVal (b : Option Bool)
  | strsVal (l : Option (List String))
  deriving DecidableEq

/-- `Params.set` (`client.py` lines 57-64): names `hasattr` does not find —
anything outside the data fields and the class-level names — raise
`AttributeError`; `start`/`end` values are re-normalized through
`get_timestamp`; every other data field (including `tbk`) is assigned
directly. Assigning to a class-level name (e.g. the method `set`) succeeds
in Python by shadowing it on the instance, leaving the seven data fields
unchanged — modelled as returning the spec unchanged. -/
def Params.set (p : Params) (key : String) (v : SetVal) : Except String Params :=
  if key ∈ paramsFields ∨ key ∈ paramsClassAttrs then
    match key, v with
    | "start", SetVal.timeVal t => Except.ok { p with start := get_timestamp t }
    | "end", SetVal.timeVal t => Except.ok { p with end_ := get_timestamp t }
    | "tbk", SetVal.strVal s => Except.ok { p with tbk := s }
    | "key_category", SetVal.optStrVal c => Except.ok { p with key_category := c }
    | "limit", SetVal.intVal n => Except.ok { p with limit := n }
    | "limit_from_start", SetVal.boolVal b => Except.ok { p with limit_from_start := b }
    | "functions", SetVal.strsVal f => Except.ok { p with functions := f }
    | _, _ => Except.ok p
  else
    Except.error "AttributeError"

/-- A value stored in a wire request dict. -/
inductive WVal : Type
  | str (s : String)
  | int (n : Int)
  | bool (b : Bool)
  | strs (l : List String)
  deriving DecidableEq

/-- The scaling exponent for binary64 rounding of `a / 10^9`: the smallest
`k` with `a * 2^k ≥ 2^52 * 10^9`, i.e. with the quotient's significand
scaled into `[2^52, 2^53)`. Fuel-bounded recursion (each step doubles `a`);
82 doublings suffice for any `a ≥ 1`, so fuel 100 covers every dividend a
pandas timestamp can produce. -/
def sigShift (a : Nat) : Nat → Nat
  | 0 => 0
  | fuel + 1 => if 2 ^ 52 * 1000000000 ≤ a then 0 else sigShift (2 * a) fuel + 1

/-- Round the rational `n / d` to the nearest integer, ties to even — the
IEEE-754 rounding CPython applies to the exact quotient of two ints. -/
def roundHalfEven (n d : Nat) : Nat :=
  if d < 2 * (n % d) then n / d + 1
  else if 2 * (n % d) < d then n / d
  else n / d + (n / d) % 2

/-- `int(a / 10**9)` for a non-negative int `a`, CPython semantics: the true
division returns the binary64 nearest (ties to even) to the exact quotient,
and `int()` truncates it. The quotient is scaled by `2^sigShift` so its
significand lies in `[2^52, 2^53)`, rounded half-even there (the binary64
values of that magnitude are exactly the integer multiples of the grid), and
unscaled by truncating division. A zero dividend gives the zero quotient
directly. Faithful for every int64-sized `a`. -/
def halfEvenSecs (a : Nat) : Nat :=
  if a = 0 then 0
  else roundHalfEven (a * 2 ^ sigShift a 100) 1000000000 / 2 ^ sigShift a 100

/-- `int(ts.value / (10 ** 9))`: nanoseconds-since-epoch to the whole-second
count CPython computes — float division correctly rounded, then truncation
toward zero; negative instants go through the same symmetric rounding. -/
def epochSecsOfNs (ns : Int) : Int :=
  if 0 ≤ ns then (halfEvenSecs ns.toNat : Int) else -(halfEvenSecs (-ns).toNat : Int)

/-- One request object of `Client._build_query` (`client.py` lines 178-194):
`destination` always present, then each optional key inserted only when the
corresponding `Params` field is not `None`, in the source's insertion order. -/
def build_req (param : Params) : List (String × WVal) :=
  [("destination", WVal.str param.tbk)]
  ++ (match param.key_category with
      | some kc => [("key_category", WVal.str kc)]
      | none => [])
  ++ (match param.start with
      | some ts => [("epoch_start", WVal.int (epochSecsOfNs ts))]
      | none => [])
  ++ (match param.end_ with
      | some ts => [("epoch_end", WVal.int (epochSecsOfNs ts))]
      | none => [])
  ++ (match param.limit with
      | some n => [("limit_record_count", WVal.int n)]
      | none => [])
  ++ (match param.limit_from_start with
      | some b => [("limit_from_start", WVal.bool b)]
      | none => [])
  ++ (match param.functions with
      | some fs => [("functions", WVal.strs fs)]
      | none => [])

/-- The argument of `Client._build_query`: a single `Params` or an ordered
sequence; `if not isiterable(params): params = [params]`. -/
inductive ParamsArg : Type
  | one (p : Params)
  | many (ps : List Params)
  deriving DecidableEq

/-- Normalization of the query argument to a list. -/
def ParamsArg.toList : ParamsArg → List Params
  | ParamsArg.one p => [p]
  | ParamsArg.many ps => ps

/-- The wire query request `{'requests': reqs}`. -/
structure QueryRequest where
  requests : List (List (String × WVal))
  deriving DecidableEq

/-- `Client._build_query` (`client.py` lines 168-197): one request object per
spec, in input order. -/
def build_query (params : ParamsArg) : QueryRequest :=
  ⟨params.toList.map build_req⟩

/-- One column of a numpy structured array: the field name, the dtype `.str`
tag (e.g. "<f4"), and the rows' element bytes; `bytes(memoryview(col))` is
their concatenation. -/
structure RecColumn where
  name : String
  dtypeStr : String
  values : List (List Nat)
  deriving DecidableEq

/-- A numpy structured array as `Client._build_data` consumes it: ordered
columns plus `len(recarray)`. A genuine numpy array has every column of
length `nrows`; the model leaves that unenforced (see header comment). -/
structure RecArray where
  cols : List RecColumn
  nrows : Nat
  deriving DecidableEq

/-- `bytes(memoryview(recarray[name]))`: the column's raw buffer. -/
def RecColumn.rawBytes (c : RecColumn) : List Nat := c.values.flatten

/-- `dtype.str.replace('<', '')`: remove every '<' character. -/
def strip_lt (s : String) : String := String.mk (s.data.filter (fun c => c ≠ '<'))

/-- The wire write dataset built by `Client._build_data`. -/
structure WireDataset where
  types : List String
  names : List String
  data : List (List Nat)
  length : Nat
  startindex : List (String × Nat)
  lengths : List (String × Nat)
  deriving DecidableEq

/-- `Client._build_data` (`client.py` lines 144-166): `types` strips '<' from
each column's dtype tag, `names` is the declared field-name order, `data` the
raw buffers in the same order, `length = len(recarray)`, and the two
single-bucket maps. -/
def build_data (recarray : RecArray) (tbk : String) : WireDataset :=
  { types := recarray.cols.map (fun c => strip_lt c.dtypeStr)
  , names := recarray.cols.map RecColumn.name
  , data := recarray.cols.map RecColumn.rawBytes
  , length := recarray.nrows
  , startindex := [(tbk, 0)]
  , lengths := [(tbk, recarray.nrows)] }

/-- One write request `{'dataset': ..., 'is_variable_length': ...}`. -/
structure WriteRequest where
  dataset : WireDataset
  is_variable_length : Bool
  deriving DecidableEq

/-- The write envelope `{'requests': [write_request]}`. -/
structure WriteEnvelope where
  requests : List WriteRequest
  deriving DecidableEq

/-- The observable outcome of one `DataService.Write` RPC dispatch: success,
a connection-level failure (`requests.exceptions.ConnectionError`) carrying
its message text, or any other transport error propagated unchanged. -/
inductive WriteOutcome : Type
  | success
  | connectionError (msg : String)
  | otherError (msg : String)
  deriving DecidableEq

/-- `Client.write` (`client.py` lines 122-142): builds the dataset and the
one-element envelope, dispatches through the injected transport, and catches
only `ConnectionError`, re-raising a `ConnectionError` with the fixed message
"Could not contact server". -/
def Client.write (recarray : RecArray) (tbk : String) (isvariablelength : Bool)
    (transport : WriteEnvelope → WriteOutcome) : WriteOutcome :=
  let env : WriteEnvelope := ⟨[⟨build_data recarray tbk, isvariablelength⟩]⟩
  match transport env with
  | WriteOutcome.connectionError _ => WriteOutcome.connectionError "Could not contact server"
  | o => o

/-- `re.sub(r'/rpc$', '/ws', s)`: the pattern is a literal anchored at the
end of the string, so it matches at most once, exactly when the string ends
with "/rpc"; the match (the last 4 characters) is replaced by "/ws".
Strings are handled through their character sequence `.data`. (Python's `$`
would also match before one trailing newline; endpoint URLs contain none.) -/
def sub_rpc_path (s : String) : String :=
  if "/rpc".data.isSuffixOf s.data then
    String.mk (s.data.take (s.data.length - 4) ++ "/ws".data)
  else s

/-- `re.sub('^http', 'ws', s)`: the pattern is a literal anchored at the
start of the string, so it matches at most once, exactly when the string
starts with "http"; the match (the first 4 characters) is replaced by "ws". -/
def sub_scheme (s : String) : String :=
  if "http".data.isPrefixOf s.data then String.mk ("ws".data ++ s.data.drop 4) else s

/-- The endpoint derivation in `Client.stream` (`client.py` lines 227-230):
the suffix rewrite runs first, then the scheme rewrite. -/
def stream_endpoint (endpoint : String) : String :=
  sub_scheme (sub_rpc_path endpoint)

/-- A batch whose two columns hold 2 and 3 rows respectively (impossible for
a genuine numpy structured array, expressible in the model). -/
def mismatchedBatch : RecArray :=
  ⟨[⟨"a", "<f8", [[0, 0, 0, 0, 0, 0, 0, 0], [1, 0, 0, 0, 0, 0, 0, 0]]⟩,
    ⟨"b", "<i4", [[1, 0, 0, 0], [2, 0, 0, 0], [3, 0, 0, 0]]⟩], 2⟩

/-- On a whole-second instant `n * 10^9` the float division is exact, so the
rounded-then-truncated quotient is exactly `n`. -/
theorem halfEvenSecs_whole (n : ℕ) : halfEvenSecs (n * 1000000000) = n := by
  unfold halfEvenSecs roundHalfEven
  rcases Nat.eq_zero_or_pos n with h0 | h0
  · subst h0
    norm_num
  · have hne : n * 1000000000 ≠ 0 := by positivity
    rw [if_neg hne]
    set s := sigShift (n * 1000000000) 100 with hs
    have hc : n * 1000000000 * 2 ^ s = n * 2 ^ s * 1000000000 := by ring
    rw [hc, Nat.mul_mod_left, Nat.mul_div_cancel _ (by norm_num : 0 < 1000000000)]
    norm_num

/-- The signed version of `halfEvenSecs_whole` at the conversion the query
builder applies. -/
theorem epochSecs_whole (n : ℕ) : epochSecsOfNs ((n : Int) * 1000000000) = (n : Int) := by
  have h0 : (0 : Int) ≤ (n : Int) * 1000000000 := by positivity
  have ht : ((n : Int) * 1000000000).toNat = n * 1000000000 := by
    rw [show ((n : Int) * 1000000000) = ((n * 1000000000 : ℕ) : Int) by push_cast; ring]
    exact Int.toNat_natCast _
  unfold epochSecsOfNs
  rw [if_pos h0, ht, halfEvenSecs_whole]

/-- C1, counterexample: on a single little-endian float32 column the encoder
emits the wire code "f4" (the dtype tag with '<' stripped), not the "f" of
the `data_type_conv` table the claim describes; and a dtype outside the
table (uint16, "<u2") is encoded as "u2" instead of failing. -/
theorem c1_counterexample :
    (build_data ⟨[⟨"a", "<f4", []⟩], 0⟩ "TEST/1Min/OHLCV").types = ["f4"]
    ∧ wlookup "<f4" data_type_conv = some "f"
    ∧ ("f4" : String) ≠ "f"
    ∧ (build_data ⟨[⟨"b", "<u2", []⟩], 0⟩ "TEST/1Min/OHLCV").types = ["u2"] := by
  refine ⟨rfl, by decide, by decide, rfl⟩

/-- C1, amended: each `types` entry is the column's numpy dtype tag with
every '<' removed ("<f4" → "f4", "<f8" → "f8", "<i4" → "i4", "<i8" → "i8");
dtypes outside that set are passed through the same way (no failure); the
`data_type_conv` single-character table is present in the module but unused
by the encoder. -/
theorem c1_types_amended :
    (∀ (r : RecArray) (tbk : String),
      (build_data r tbk).types = r.cols.map (fun c => strip_lt c.dtypeStr))
    ∧ strip_lt "<f4" = "f4" ∧ strip_lt "<f8" = "f8"
    ∧ strip_lt "<i4" = "i4" ∧ strip_lt "<i8" = "i8"
    ∧ strip_lt "<u2" = "u2" := by
  exact ⟨fun r tbk => rfl, by decide, by decide, by decide, by decide, by decide⟩

/-- C2: a time value constructed from integer `n` (whole seconds since
epoch) converts back to exactly `n` whole epoch seconds, and a spec whose
start (resp. end) was set from `n` emits `epoch_start` (resp. `epoch_end`)
equal to `n` in the built request. -/
theorem c2_epoch_roundtrip :
    ∀ n : ℕ,
      (get_timestamp (some (TimeIn.secs (n : Int)))).map epochSecsOfNs = some (n : Int)
      ∧ (∀ (tf ag : String) (li : Option Int) (lf : Option Bool),
          wlookup "epoch_start"
              (build_req (Params.init (Symbols.single "S") tf ag
                (some (TimeIn.secs (n : Int))) none li lf))
            = some (WVal.int (n : Int))
          ∧ wlookup "epoch_end"
              (build_req (Params.init (Symbols.single "S") tf ag
                none (some (TimeIn.secs (n : Int))) li lf))
            = some (WVal.int (n : Int))) := by
  intro n
  have hdiv := epochSecs_whole n
  refine ⟨by simp [get_timestamp, hdiv], ?_⟩
  intro tf ag li lf
  cases li <;> cases lf <;>
    simp [Params.init, get_timestamp, build_req, wlookup, hdiv]

/-- C3: the bucket key of a spec built from a single symbol is
`s ++ "/" ++ tf ++ "/" ++ ag`; for an ordered collection it is the symbols
joined by ',' in their given order followed by `"/" ++ tf ++ "/" ++ ag`. -/
theorem c3_bucket_key :
    (∀ (s tf ag : String) (st en : Option TimeIn) (li : Option Int) (lf : Option Bool),
      (Params.init (Symbols.single s) tf ag st en li lf).tbk = s ++ "/" ++ tf ++ "/" ++ ag)
    ∧ (∀ (s1 : String) (rest : List String) (tf ag : String) (st en : Option TimeIn)
        (li : Option Int) (lf : Option Bool),
      (Params.init (Symbols.many (s1 :: rest)) tf ag st en li lf).tbk
        = String.intercalate "," (s1 :: rest) ++ "/" ++ tf ++ "/" ++ ag)
    ∧ (∀ (a b tf ag : String) (st en : Option TimeIn) (li : Option Int) (lf : Option Bool),
      (Params.init (Symbols.many [a, b]) tf ag st en li lf).tbk
        = a ++ "," ++ b ++ "/" ++ tf ++ "/" ++ ag) := by
  refine ⟨?_, ?_, ?_⟩ <;> intros <;>
    simp [Params.init, Symbols.toList, String.intercalate, String.intercalate.go]

/-- C4, counterexample: for a spec whose start is the reachable instant
`ns = 10^18 - 1` (one nanosecond before the second 10^9, i.e.
`pd.Timestamp('2001-09-09 01:46:39.999999999')`), the built request emits
`epoch_start = 10^9`: the float quotient rounds up across the second
boundary, so the emitted value is not the truncated whole-seconds value
`10^9 - 1`. -/
theorem c4_counterexample :
    wlookup "epoch_start"
        (build_req (Params.init (Symbols.single "S") "1Sec" "TICK"
          (some (TimeIn.instant (10 ^ 18 - 1))) none none none))
      = some (WVal.int 1000000000)
    ∧ Int.tdiv (10 ^ 18 - 1) (10 ^ 9) = 999999999
    ∧ (1000000000 : Int) ≠ 999999999 := by
  refine ⟨by decide, by decide, by decide⟩

/-- C4, amended: in a built request, `destination` is always present, and
each optional key (`key_category`, `epoch_start`, `epoch_end`,
`limit_record_count`, `limit_from_start`, `functions`) is present exactly
when the corresponding spec field is set; in particular an unset start/end
yields no `epoch_start`/`epoch_end` key. The epoch values are
`int(value / 10**9)` under CPython float semantics — the correctly rounded
binary64 quotient truncated toward zero — which equals the truncated
whole-seconds value on every whole-second instant and whenever
`|ns| ≤ 2^53`, but rounds up to the next second for instants less than half
a float ulp below a second boundary (the counterexample's `10^18 - 1`). -/
theorem c4_optional_fields (p : Params) :
    wlookup "destination" (build_req p) = some (WVal.str p.tbk)
    ∧ wlookup "key_category" (build_req p) = p.key_category.map WVal.str
    ∧ wlookup "epoch_start" (build_req p)
      = p.start.map (fun ts => WVal.int (epochSecsOfNs ts))
    ∧ wlookup "epoch_end" (build_req p)
      = p.end_.map (fun ts => WVal.int (epochSecsOfNs ts))
    ∧ wlookup "limit_record_count" (build_req p) = p.limit.map WVal.int
    ∧ wlookup "limit_from_start" (build_req p) = p.limit_from_start.map WVal.bool
    ∧ wlookup "functions" (build_req p) = p.functions.map WVal.strs := by
  obtain ⟨tbk, kc, st, en, li, lf, fn⟩ := p
  cases kc <;> cases st <;> cases en <;> cases li <;> cases lf <;> cases fn <;>
    simp [build_req, wlookup]

/-- C5: the emitted dataset's `types`, `names` and `data` sequences all have
one entry per column, index-aligned with the batch's declared column order;
`length` is the batch's row count; `startindex` is exactly `{tbk: 0}` and
`lengths` exactly `{tbk: rowCount}`. -/
theorem c5_dataset_alignment (r : RecArray) (tbk : String) :
    (build_data r tbk).types.length = r.cols.length
    ∧ (build_data r tbk).names.length = r.cols.length
    ∧ (build_data r tbk).data.length = r.cols.length
    ∧ (∀ i : Nat,
        (build_data r tbk).types[i]? = (r.cols[i]?).map (fun c => strip_lt c.dtypeStr)
        ∧ (build_data r tbk).names[i]? = (r.cols[i]?).map RecColumn.name
        ∧ (build_data r tbk).data[i]? = (r.cols[i]?).map RecColumn.rawBytes)
    ∧ (build_data r tbk).length = r.nrows
    ∧ (build_data r tbk).startindex = [(tbk, 0)]
    ∧ (build_data r tbk).lengths = [(tbk, r.nrows)] := by
  refine ⟨by simp [build_data], by simp [build_data], by simp [build_data],
    ?_, rfl, rfl, rfl⟩
  intro i
  refine ⟨?_, ?_, ?_⟩ <;> simp [build_data]

/-- C6, counterexample: the generic setter accepts the declared attribute
`tbk` and reassigns it, so the bucket key computed at construction is not
immutable. -/
theorem c6_counterexample :
    (Params.init (Symbols.single "TSLA") "1Min" "OHLCV" none none none none).set "tbk"
        (SetVal.strVal "HACKED")
      = Except.ok { tbk := "HACKED", key_category := none, start := none, end_ := none,
                    limit := none, limit_from_start := none, functions := none }
    ∧ (Params.init (Symbols.single "TSLA") "1Min" "OHLCV" none none none none).tbk
      = "TSLA/1Min/OHLCV"
    ∧ ("HACKED" : String) ≠ "TSLA/1Min/OHLCV" := by
  exact ⟨rfl, rfl, by decide⟩

/-- C6, amended: the generic setter rejects any name that is not an
attribute of the spec object — anything outside the declared data fields and
the class-level attribute names `hasattr` also sees — with `AttributeError`,
yielding no updated spec; a class-level name such as the method `set` is
accepted (the assignment shadows it, leaving the data fields unchanged);
`start`/`end` are re-normalized through timestamp construction; and the
bucket key field `tbk` is itself a declared attribute, so the setter can
reassign it: bucketKey is not immutable. -/
theorem c6_setter_amended :
    (∀ (p : Params) (key : String) (v : SetVal),
      key ∉ paramsFields → key ∉ paramsClassAttrs →
        p.set key v = Except.error "AttributeError")
    ∧ (∀ (p : Params) (v : SetVal), p.set "set" v = Except.ok p)
    ∧ (∀ (p : Params) (t : Option TimeIn),
        p.set "start" (SetVal.timeVal t) = Except.ok { p with start := get_timestamp t })
    ∧ (∀ (p : Params) (t : Option TimeIn),
        p.set "end" (SetVal.timeVal t) = Except.ok { p with end_ := get_timestamp t })
    ∧ (∀ (p : Params) (s : String),
        p.set "tbk" (SetVal.strVal s) = Except.ok { p with tbk := s }) := by
  refine ⟨?_, fun p v => ?_, fun p t => rfl, fun p t => rfl, fun p s => rfl⟩
  · intro p key v h1 h2
    simp [Params.set, h1, h2]
  · cases v <;> rfl

/-- C6, witness for the amended theorem at a concrete name that is neither a
data field nor a class attribute. -/
theorem c6_setter_witness :
    (Params.init (Symbols.single "S") "1Min" "Tick" none none none none).set "bogus"
        (SetVal.strVal "x")
      = Except.error "AttributeError" :=
  c6_setter_amended.1 _ "bogus" _ (by decide) (by decide)

/-- C7, counterexample: a batch whose columns hold 2 and 3 rows is encoded
without any error — the encoder performs no row-count check and emits a full
payload with `length = len(recarray)`. -/
theorem c7_counterexample :
    (mismatchedBatch.cols.map (fun c => c.values.length)) = [2, 3]
    ∧ build_data mismatchedBatch "T/1Min/X"
      = { types := ["f8", "i4"], names := ["a", "b"],
          data := [[0, 0, 0, 0, 0, 0, 0, 0, 1, 0, 0, 0, 0, 0, 0, 0],
                   [1, 0, 0, 0, 2, 0, 0, 0, 3, 0, 0, 0]],
          length := 2, startindex := [("T/1Min/X", 0)],
          lengths := [("T/1Min/X", 2)] } := by
  exact ⟨by decide, rfl⟩

/-- C7, amended: the encoder is a total function that never reports a
column-length mismatch: for every batch (uniform or not) it produces the
dataset, taking `length` from `len(recarray)` and each buffer from the
column's own bytes; uniform column length is guaranteed only by the numpy
structured-array input type, not checked here. -/
theorem c7_no_length_check :
    ∀ (cols : List RecColumn) (nrows : Nat) (tbk : String),
      build_data ⟨cols, nrows⟩ tbk
        = { types := cols.map (fun c => strip_lt c.dtypeStr),
            names := cols.map RecColumn.name,
            data := cols.map RecColumn.rawBytes,
            length := nrows,
            startindex := [(tbk, 0)],
            lengths := [(tbk, nrows)] } := by
  intro cols nrows tbk
  rfl

/-- C8, counterexample: the re-signalled connection failure carries the
message "Could not contact server" (capital C), which is not the string
"could not contact server" the claim states; the error is the transport's
own connection-error type, not a distinct one. -/
theorem c8_counterexample :
    Client.write ⟨[], 0⟩ "T/1Min/X" false
        (fun _ => WriteOutcome.connectionError "HTTPConnectionPool: Max retries exceeded")
      = WriteOutcome.connectionError "Could not contact server"
    ∧ ("Could not contact server" : String) ≠ "could not contact server" := by
  exact ⟨rfl, by decide⟩

/-- C8, amended: a connection-level transport failure in `write` is
re-raised as the same connection-error type with the fixed message
"Could not contact server", whatever the raw transport message was (so the
raw text is not passed through); other transport outcomes pass unchanged. -/
theorem c8_write_wrap_amended :
    ∀ (r : RecArray) (tbk : String) (ivl : Bool) (rawMsg : String),
      Client.write r tbk ivl (fun _ => WriteOutcome.connectionError rawMsg)
        = WriteOutcome.connectionError "Could not contact server"
      ∧ (∀ m : String,
          Client.write r tbk ivl (fun _ => WriteOutcome.otherError m)
            = WriteOutcome.otherError m)
      ∧ Client.write r tbk ivl (fun _ => WriteOutcome.success) = WriteOutcome.success := by
  intro r tbk ivl rawMsg
  exact ⟨rfl, fun m => rfl, rfl⟩

/-- C9: both rewrites are anchored — a string not ending in "/rpc" keeps its
path and a string not starting with "http" keeps its scheme — and on the
spec's examples the derivation yields "ws://localhost:5993/ws" and
"wss://host/ws"; a mid-path "/rpc" and an "https" substring elsewhere in the
URL are never rewritten. -/
theorem c9_stream_endpoint :
    (∀ s : String, ("/rpc".data.isSuffixOf s.data) = false → sub_rpc_path s = s)
    ∧ (∀ s : String, ("http".data.isPrefixOf s.data) = false → sub_scheme s = s)
    ∧ stream_endpoint "http://localhost:5993/rpc" = "ws://localhost:5993/ws"
    ∧ stream_endpoint "https://host/rpc" = "wss://host/ws"
    ∧ stream_endpoint "http://h/rpc/x" = "ws://h/rpc/x"
    ∧ stream_endpoint "http://host/https/rpc" = "ws://host/https/ws" := by
  refine ⟨?_, ?_, by decide, by decide, by decide, by decide⟩
  · intro s h
    simp [sub_rpc_path, h]
  · intro s h
    simp [sub_scheme, h]

/-- C9, witness: anchoring applied at concrete strings that match neither
pattern. -/
theorem c9_stream_endpoint_witness :
    sub_rpc_path "ws://x/rpc/mid" = "ws://x/rpc/mid"
    ∧ sub_scheme "ftp://host/ws" = "ftp://host/ws" :=
  ⟨c9_stream_endpoint.1 "ws://x/rpc/mid" (by decide),
   c9_stream_endpoint.2.1 "ftp://host/ws" (by decide)⟩

/-- C10: building a query request from an empty sequence of specs yields
exactly `{requests: []}`; in general the requests array has one entry per
input spec in input order, and the i-th entry's `destination` is the i-th
spec's bucket key. -/
theorem c10_build_query_shape :
    build_query (ParamsArg.many []) = ⟨[]⟩
    ∧ (∀ arg : ParamsArg, (build_query arg).requests.length = arg.toList.length)
    ∧ (∀ (arg : ParamsArg) (i : Nat),
        ((build_query arg).requests[i]?).map (wlookup "destination")
          = (arg.toList[i]?).map (fun p => some (WVal.str p.tbk))) := by
  refine ⟨rfl, ?_, ?_⟩
  · intro arg
    simp [build_query]
  · intro arg i
    cases h : arg.toList[i]? <;>
      simp [build_query, List.getElem?_map, h, build_req, wlookup]

end PyMarketstore
